import Mathlib

/-!
Shallow embedding of the GhostHub message-to-issue pipeline.

The definitions below are translated from the JavaScript sources:
  src/storage/indexeddb.js        (IndexedDBManager)
  src/unnamed/part_008            (AIWorkflowManager)
  src/unnamed/part_009            (PromptAPIManager)
  src/unnamed/part_010            (SummarizerAPIManager)
  src/unnamed/part_011            (MessageAnalyzer)
  src/utils/multimodal-ai.js      (MultimodalAI)

Modelling conventions:
  * JS strings are Lean `String`s (one JS UTF-16 unit ~ one Lean `Char`;
    the repository only manipulates plain text, so this is faithful).
  * `Date.now()` is passed in explicitly as a `now : Nat` argument.
  * Possibly-`undefined` JS fields are `Option` fields; the JS `x || d`
    idiom (which also treats `""` and `0` as absent) is modelled by the
    `jsStrOr` / `jsNatOr` helpers.
  * Async functions that can reject are modelled with `Except JsError`;
    stateful managers thread their state explicitly.
  * The browser AI capability (`window.ai`) is an injected environment
    record carrying the availability flag and the session's response
    function.
-/

namespace GhostHub

/-- JS `\s` (whitespace class), restricted to the ASCII range that the
repository's data can contain. -/
def jsIsSpace (c : Char) : Bool :=
  c = ' ' || c = '\t' || c = '\n' || c = '\r' || c = '\x0b' || c = '\x0c'

/-- ASCII lower-casing of a string, modelling JS `toLowerCase` on the
ASCII tokens the repository compares. -/
def lowerString (s : String) : String :=
  String.mk (s.data.map Char.toLower)

/-- JS `opt || d` for string-valued fields: `undefined` and `""` are falsy. -/
def jsStrOr (o : Option String) (d : String) : String :=
  match o with
  | none => d
  | some s => if s = "" then d else s

/-- JS `opt || d` for numeric fields: `undefined` and `0` are falsy. -/
def jsNatOr (o : Option Nat) (d : Nat) : Nat :=
  match o with
  | none => d
  | some v => if v = 0 then d else v

/-- JS truthiness test of a numeric field (`t ? a : b`). -/
def jsNatTruthy (o : Option Nat) : Bool :=
  match o with
  | none => false
  | some v => v ≠ 0

/-! ## Data model (section records of src/storage/indexeddb.js) -/

/-- One message captured from a chat platform (transient input record). -/
structure Message where
  text : String
  author : Option String := none
  timestamp : Option Nat := none
  platform : Option String := none
deriving Repr, DecidableEq

/-- The `{author, text, timestamp}` snapshot kept inside a summary
(`summarizeThread`, src/unnamed/part_010 lines 97-101). -/
structure MsgSnapshot where
  author : Option String
  text : String
  timestamp : Option Nat
deriving Repr, DecidableEq

/-- The classification object built by `classifyMessage`
(src/unnamed/part_009 lines 111-119) and handed to
`storeClassification`.  A generic caller of the store may or may not put
a `timestamp` field on the record, hence the optional field. -/
structure ClassificationData where
  messageText : String
  platform : String
  author : String
  messageTimestamp : Nat
  classification : String
  confidence : String
  rawResponse : String
  timestamp : Option Nat := none
deriving Repr, DecidableEq

/-- A classification as stored in the `classifications` collection:
input fields spread, `timestamp` overwritten, auto-increment `id`. -/
structure ClassificationRecord where
  id : Nat
  messageText : String
  platform : String
  author : String
  messageTimestamp : Nat
  classification : String
  confidence : String
  rawResponse : String
  timestamp : Nat
deriving Repr, DecidableEq

/-- The summary object built by `summarizeThread`
(src/unnamed/part_010 lines 93-104). -/
structure SummaryData where
  threadId : String
  platform : String
  messageCount : Nat
  originalMessages : List MsgSnapshot
  summary : String
  summaryLength : Nat
  timestamp : Option Nat := none
deriving Repr, DecidableEq

/-- A summary as stored in the `summaries` collection. -/
structure SummaryRecord where
  id : Nat
  threadId : String
  platform : String
  messageCount : Nat
  originalMessages : List MsgSnapshot
  summary : String
  summaryLength : Nat
  timestamp : Nat
deriving Repr, DecidableEq

/-- The issue-draft object built by `_createIssueDraft`
(src/unnamed/part_008 lines 187-199). -/
structure IssueData where
  title : String
  description : String
  labels : List String
  type : String
  platform : String
  messageCount : Nat
  classificationId : Nat
  summaryId : Nat
  status : String
  createdAt : Nat
  originalMessages : List MsgSnapshot
  timestamp : Option Nat := none
deriving Repr, DecidableEq

/-- An issue draft as stored in the `issues` collection
(`storeIssue` spreads the input, overwrites `timestamp`, defaults
`status` to `'draft'`, and IndexedDB assigns the `id`). -/
structure IssueRecord where
  id : Nat
  title : String
  description : String
  labels : List String
  type : String
  platform : String
  messageCount : Nat
  classificationId : Nat
  summaryId : Nat
  status : String
  createdAt : Nat
  originalMessages : List MsgSnapshot
  timestamp : Nat
deriving Repr, DecidableEq

/-- The three IndexedDB object stores of `GhostHubDB`
(src/storage/indexeddb.js lines 38-71), with the auto-increment key
generators modelled as `next*Id` counters (IndexedDB key generators
start at 1, increase monotonically and never reuse keys). -/
structure DBState where
  classifications : List ClassificationRecord
  summaries : List SummaryRecord
  issues : List IssueRecord
  nextClassificationId : Nat
  nextSummaryId : Nat
  nextIssueId : Nat
deriving Repr, DecidableEq

/-- A freshly created `GhostHubDB`. -/
def emptyDB : DBState :=
  { classifications := [], summaries := [], issues := []
    nextClassificationId := 1, nextSummaryId := 1, nextIssueId := 1 }

/-- `storeClassification` (src/storage/indexeddb.js lines 80-86):
`_addRecord('classifications', {...classification, timestamp: Date.now()})`.
The spread copies every input field and then the `timestamp` property is
unconditionally overwritten with `Date.now()`; IndexedDB assigns the
auto-increment id and returns it. -/
def storeClassification (c : ClassificationData) (now : Nat) (st : DBState) :
    Nat × DBState :=
  let record : ClassificationRecord :=
    { id := st.nextClassificationId
      messageText := c.messageText, platform := c.platform, author := c.author
      messageTimestamp := c.messageTimestamp, classification := c.classification
      confidence := c.confidence, rawResponse := c.rawResponse
      timestamp := now }
  (st.nextClassificationId,
   { st with classifications := st.classifications ++ [record]
             nextClassificationId := st.nextClassificationId + 1 })

/-- `storeSummary` (src/storage/indexeddb.js lines 93-99):
`_addRecord('summaries', {...summary, timestamp: Date.now()})`. -/
def storeSummary (s : SummaryData) (now : Nat) (st : DBState) : Nat × DBState :=
  let record : SummaryRecord :=
    { id := st.nextSummaryId
      threadId := s.threadId, platform := s.platform
      messageCount := s.messageCount, originalMessages := s.originalMessages
      summary := s.summary, summaryLength := s.summaryLength
      timestamp := now }
  (st.nextSummaryId,
   { st with summaries := st.summaries ++ [record]
             nextSummaryId := st.nextSummaryId + 1 })

/-- `storeIssue` (src/storage/indexeddb.js lines 106-113):
`_addRecord('issues', {...issue, timestamp: Date.now(), status: issue.status || 'draft'})`. -/
def storeIssue (i : IssueData) (now : Nat) (st : DBState) : Nat × DBState :=
  let record : IssueRecord :=
    { id := st.nextIssueId
      title := i.title, description := i.description, labels := i.labels
      type := i.type, platform := i.platform, messageCount := i.messageCount
      classificationId := i.classificationId, summaryId := i.summaryId
      status := if i.status = "" then "draft" else i.status
      createdAt := i.createdAt, originalMessages := i.originalMessages
      timestamp := now }
  (st.nextIssueId,
   { st with issues := st.issues ++ [record]
             nextIssueId := st.nextIssueId + 1 })

/-- `_getRecord('issues', id)` (IDBObjectStore.get by key). -/
def findIssue (issues : List IssueRecord) (id : Nat) : Option IssueRecord :=
  issues.find? (fun r => r.id == id)

/-- `_updateRecord('issues', data)` (IDBObjectStore.put: replace the
record with the same key, or insert it if absent). -/
def putIssue : List IssueRecord → IssueRecord → List IssueRecord
  | [], r => [r]
  | x :: xs, r => if x.id == r.id then r :: xs else x :: putIssue xs r

/-- `updateIssueStatus` (src/storage/indexeddb.js lines 175-182): read
the issue by id; if present, set its `status` property to the requested
value and `put` it back; if absent, do nothing (the promise still
resolves). -/
def updateIssueStatus (id : Nat) (status : String) (st : DBState) : DBState :=
  match findIssue st.issues id with
  | none => st
  | some issue => { st with issues := putIssue st.issues { issue with status := status } }

/-! ## Prompt API (src/unnamed/part_009) -/

/-- Errors a model operation can reject with (JS thrown `Error`s). -/
inductive JsError where
  /-- `'Prompt API is not available'` (part_009 line 56). -/
  | promptUnavailable
  /-- `'Summarizer API is not available'` (part_010 line 54). -/
  | summarizerUnavailable
  /-- `'Thread must contain at least one message'` (part_008 line 94, part_010 line 83). -/
  | emptyThread
  /-- A rejection coming from the injected capability itself. -/
  | capabilityFailure (msg : String)
deriving Repr, DecidableEq

/-- The successful payload of a possibly-rejected async call. -/
def exceptToOption : Except JsError α → Option α
  | Except.ok a => some a
  | Except.error _ => none

/-- Case-insensitive literal match: `matchTokenCI pat cs` succeeds when
`cs` starts with the lower-case pattern `pat` up to ASCII case, returning
the consumed characters (in their original case) and the rest. -/
def matchTokenCI : List Char → List Char → Option (List Char × List Char)
  | [], cs => some ([], cs)
  | _ :: _, [] => none
  | p :: ps, c :: cs =>
    if c.toLower = p then
      match matchTokenCI ps cs with
      | some (m, rest) => some (c :: m, rest)
      | none => none
    else none

/-- Greedy `\s*`. -/
def skipSpacesJS : List Char → List Char
  | [] => []
  | c :: cs => if jsIsSpace c then skipSpacesJS cs else c :: cs

/-- Ordered regex alternation `(t₁|t₂|…)` over literal tokens: try each
token at the current position, first hit wins, capture the consumed
characters. -/
def tryTokens (pats : List (List Char)) (cs : List Char) : Option (List Char) :=
  match pats with
  | [] => none
  | p :: ps =>
    match matchTokenCI p cs with
    | some (m, _) => some m
    | none => tryTokens ps cs

/-- One attempt of `/category:\s*(bug|feature|pr_mention|other)/i` at a
fixed start position: literal `category:`, then whitespace, then the
first alternative that matches; returns the captured group. -/
def tryCategoryAt (cs : List Char) : Option (List Char) :=
  match matchTokenCI "category:".data cs with
  | none => none
  | some (_, rest) =>
    tryTokens ["bug".data, "feature".data, "pr_mention".data, "other".data]
      (skipSpacesJS rest)

/-- One attempt of `/confidence:\s*(high|medium|low)/i` at a fixed start
position. -/
def tryConfidenceAt (cs : List Char) : Option (List Char) :=
  match matchTokenCI "confidence:".data cs with
  | none => none
  | some (_, rest) =>
    tryTokens ["high".data, "medium".data, "low".data] (skipSpacesJS rest)

/-- Leftmost-match scan of `String.prototype.match`: try the pattern at
every start position from the left. -/
def regexScan (attempt : List Char → Option (List Char)) : List Char → Option (List Char)
  | [] => attempt []
  | c :: cs =>
    match attempt (c :: cs) with
    | some m => some m
    | none => regexScan attempt cs

/-- Result of `_parseClassificationResponse`. -/
structure ParsedClassification where
  category : String
  confidence : String
deriving Repr, DecidableEq

/-- `_parseClassificationResponse` (src/unnamed/part_009 lines 163-171):
match the two regexes against the raw response; lower-case the captured
group; default to `'other'` / `'low'` when a regex does not match. -/
def _parseClassificationResponse (response : String) : ParsedClassification :=
  let categoryMatch := regexScan tryCategoryAt response.data
  let confidenceMatch := regexScan tryConfidenceAt response.data
  { category :=
      match categoryMatch with
      | some m => String.mk (m.map Char.toLower)
      | none => "other"
    confidence :=
      match confidenceMatch with
      | some m => String.mk (m.map Char.toLower)
      | none => "low" }

/-- The injected `window.ai.languageModel` capability. -/
structure PromptEnv where
  /-- `capabilities().available === 'readily'` (and the API object exists). -/
  available : Bool
  /-- Whether `languageModel.create` succeeds. -/
  createOk : Bool
  /-- `session.prompt` as a deterministic response function. -/
  respond : String → Except JsError String

/-- Mutable fields of `PromptAPIManager`. -/
structure PromptState where
  /-- Whether `this.session` is non-null. -/
  session : Bool
  isAvailable : Bool
deriving Repr, DecidableEq

/-- `new PromptAPIManager()`. -/
def promptState0 : PromptState := { session := false, isAvailable := false }

/-- `PromptAPIManager.initialize` (part_009 lines 49-68): no-op when a
session exists; otherwise check availability (recording it on the
manager) and either create the session or throw
`'Prompt API is not available'`. -/
def promptInitialize (env : PromptEnv) (mgr : PromptState) :
    PromptState × Except JsError Unit :=
  if mgr.session then (mgr, Except.ok ())
  else
    let mgr := { mgr with isAvailable := env.available }
    if env.available then
      if env.createOk then ({ mgr with session := true }, Except.ok ())
      else (mgr, Except.error (JsError.capabilityFailure "create"))
    else (mgr, Except.error JsError.promptUnavailable)

/-- The prompt string built by `classifyMessage` (part_009 line 106). -/
def classificationPrompt (text : String) : String :=
  "Classify the following message:\n\n\"" ++ text ++ "\""

/-- A classification result as returned to the caller (the stored data
plus its assigned id, part_009 lines 122-123). -/
structure ClassificationResult where
  data : ClassificationData
  id : Nat
deriving Repr, DecidableEq

/-- `PromptAPIManager.classifyMessage` (part_009 lines 98-131):
lazily initialize the session, send the classification prompt to the
capability, parse the raw response, build the result object, persist it
via `storeClassification`, and return it with its id.  There is no
validation of `message.text`; rejections come only from initialization
or from the capability call. -/
def classifyMessage (env : PromptEnv) (mgr : PromptState) (message : Message)
    (now : Nat) (db : DBState) :
    PromptState × DBState × Except JsError ClassificationResult :=
  let (mgr, init) :=
    if mgr.session then (mgr, Except.ok ()) else promptInitialize env mgr
  match init with
  | Except.error e => (mgr, db, Except.error e)
  | Except.ok _ =>
    match env.respond (classificationPrompt message.text) with
    | Except.error e => (mgr, db, Except.error e)
    | Except.ok response =>
      let parsed := _parseClassificationResponse response
      let result : ClassificationData :=
        { messageText := message.text
          platform := jsStrOr message.platform "unknown"
          author := jsStrOr message.author "unknown"
          messageTimestamp := jsNatOr message.timestamp now
          classification := parsed.category
          confidence := parsed.confidence
          rawResponse := response }
      let (id, db) := storeClassification result now db
      (mgr, db, Except.ok { data := result, id := id })

/-! ## Summarizer API (src/unnamed/part_010) -/

/-- The injected `window.ai.summarizer` capability. -/
structure SummarizerEnv where
  /-- `capabilities().available === 'readily'` (and the API object exists). -/
  available : Bool
  /-- Whether `summarizer.create` succeeds. -/
  createOk : Bool
  /-- `summarizer.summarize` as a deterministic response function. -/
  summarize : String → Except JsError String

/-- Mutable fields of `SummarizerAPIManager`. -/
structure SummarizerState where
  /-- Whether `this.summarizer` is non-null. -/
  summarizer : Bool
  isAvailable : Bool
deriving Repr, DecidableEq

/-- `new SummarizerAPIManager()`. -/
def summarizerState0 : SummarizerState := { summarizer := false, isAvailable := false }

/-- `SummarizerAPIManager.initialize` (part_010 lines 47-68). -/
def summarizerInitialize (env : SummarizerEnv) (mgr : SummarizerState) :
    SummarizerState × Except JsError Unit :=
  if mgr.summarizer then (mgr, Except.ok ())
  else
    let mgr := { mgr with isAvailable := env.available }
    if env.available then
      if env.createOk then ({ mgr with summarizer := true }, Except.ok ())
      else (mgr, Except.error (JsError.capabilityFailure "create"))
    else (mgr, Except.error JsError.summarizerUnavailable)

/-- Model of `Date.prototype.toLocaleString` as an opaque deterministic
rendering of the millisecond timestamp (the repository only embeds the
rendered text in prose, never parses it back). -/
def dateToLocaleString (ms : Nat) : String := toString ms

/-- A thread handed to `summarizeThread` / `processThread`. -/
structure Thread where
  threadId : Option String := none
  platform : Option String := none
  messages : List Message
deriving Repr, DecidableEq

/-- One entry of `_formatMessagesForSummary`'s `map`
(part_010 lines 148-153). -/
def formatMessageForSummary (index : Nat) (msg : Message) : String :=
  let author := jsStrOr msg.author "Unknown"
  let text := msg.text
  let timestamp :=
    if jsNatTruthy msg.timestamp then dateToLocaleString (msg.timestamp.getD 0) else ""
  "Message " ++ toString (index + 1) ++ " (" ++ author
    ++ (if timestamp ≠ "" then " - " ++ timestamp else "") ++ "):\n" ++ text

/-- The indexed `map` underlying `_formatMessagesForSummary`. -/
def formatMessagesAux (index : Nat) : List Message → List String
  | [] => []
  | m :: ms => formatMessageForSummary index m :: formatMessagesAux (index + 1) ms

/-- `_formatMessagesForSummary` (part_010 lines 147-157): render each
message with author and optional timestamp and join with blank lines. -/
def _formatMessagesForSummary (messages : List Message) : String :=
  String.intercalate "\n\n" (formatMessagesAux 0 messages)

/-- A summary result as returned to the caller (stored data plus id,
part_010 lines 107-108). -/
structure SummaryResult where
  data : SummaryData
  id : Nat
deriving Repr, DecidableEq

/-- `SummarizerAPIManager.summarizeThread` (part_010 lines 75-116):
lazily initialize, reject empty threads, format the messages, request a
summary from the capability, persist the result and return it with its
id. -/
def summarizeThread (env : SummarizerEnv) (mgr : SummarizerState) (thread : Thread)
    (now : Nat) (db : DBState) :
    SummarizerState × DBState × Except JsError SummaryResult :=
  let (mgr, init) :=
    if mgr.summarizer then (mgr, Except.ok ()) else summarizerInitialize env mgr
  match init with
  | Except.error e => (mgr, db, Except.error e)
  | Except.ok _ =>
    if thread.messages.isEmpty then (mgr, db, Except.error JsError.emptyThread)
    else
      let combinedText := _formatMessagesForSummary thread.messages
      match env.summarize combinedText with
      | Except.error e => (mgr, db, Except.error e)
      | Except.ok summaryText =>
        let result : SummaryData :=
          { threadId := jsStrOr thread.threadId ("thread_" ++ toString now)
            platform := jsStrOr thread.platform "unknown"
            messageCount := thread.messages.length
            originalMessages := thread.messages.map (fun m =>
              { author := m.author, text := m.text, timestamp := m.timestamp })
            summary := summaryText
            summaryLength := summaryText.length }
        let (id, db) := storeSummary result now db
        (mgr, db, Except.ok { data := result, id := id })

/-- JS template-literal rendering of a possibly-`undefined` string. -/
def jsShowOptString (o : Option String) : String :=
  match o with
  | some s => s
  | none => "undefined"

/-- One `### Message n` block of `createIssueDescription`
(part_010 lines 178-185). -/
def renderOriginalMessage (index : Nat) (msg : MsgSnapshot) : String :=
  "### Message " ++ toString (index + 1) ++ "\n"
    ++ "**Author**: " ++ jsShowOptString msg.author ++ "\n"
    ++ (if jsNatTruthy msg.timestamp then
          "**Time**: " ++ dateToLocaleString (msg.timestamp.getD 0) ++ "\n"
        else "")
    ++ "\n" ++ msg.text ++ "\n\n"

/-- The indexed `forEach` underlying `createIssueDescription`. -/
def renderOriginalMessages (index : Nat) : List MsgSnapshot → String
  | [] => ""
  | m :: ms => renderOriginalMessage index m ++ renderOriginalMessages (index + 1) ms

/-- `SummarizerAPIManager.createIssueDescription`
(part_010 lines 165-191): pure Markdown formatting of the issue body. -/
def createIssueDescription (summary : SummaryData) (classification : ClassificationData) :
    String :=
  "## Summary\n\n" ++ summary.summary ++ "\n\n"
    ++ "## Details\n\n"
    ++ "- **Type**: " ++ classification.classification ++ "\n"
    ++ "- **Platform**: " ++ summary.platform ++ "\n"
    ++ "- **Message Count**: " ++ toString summary.messageCount ++ "\n\n"
    ++ "## Original Messages\n\n"
    ++ renderOriginalMessages 0 summary.originalMessages
    ++ "---\n" ++ "*Generated by GhostHub*"

/-! ## Workflow Orchestrator (src/unnamed/part_008) -/

/-- The actionable categories (part_008 lines 65, 107). -/
def actionableCategories : List String := ["bug", "feature", "pr_mention"]

/-- The emoji literal prefixed to bug titles (part_008 line 215). -/
def bugEmoji : String := "üêõ"

/-- The emoji literal prefixed to feature titles (part_008 line 215). -/
def featureEmoji : String := "‚ú®"

/-- The emoji literal prefixed to the remaining (pr_mention) titles
(part_008 line 215). -/
def mergeEmoji : String := "üîÄ"

/-- `summary.split(/[.!?]\s/)[0]`: the characters up to (excluding) the
first sentence terminator that is followed by a whitespace character. -/
def splitFirstSentenceChars : List Char → List Char
  | [] => []
  | [c] => [c]
  | c :: d :: rest =>
    if (c = '.' || c = '!' || c = '?') && jsIsSpace d then []
    else c :: splitFirstSentenceChars (d :: rest)

/-- `substring(0, n)` on the character model. -/
def strTake (s : String) (n : Nat) : String := String.mk (s.data.take n)

/-- The ternary emoji choice of `_generateIssueTitle` (part_008 line 215). -/
def emojiForType (type : String) : String :=
  if type = "bug" then bugEmoji
  else if type = "feature" then featureEmoji
  else mergeEmoji

/-- `AIWorkflowManager._generateIssueTitle` (part_008 lines 208-218):
take the summary's first sentence, truncate it to 77 characters plus
`'...'` when longer than 80, and prefix the type's emoji. -/
def _generateIssueTitle (type summary : String) : String :=
  let firstSentence := String.mk (splitFirstSentenceChars summary.data)
  let truncated :=
    if firstSentence.length > 80 then strTake firstSentence 77 ++ "..."
    else firstSentence
  emojiForType type ++ " " ++ truncated

/-- `AIWorkflowManager._generateIssueLabels` (part_008 lines 226-244):
the type-specific label, then `'ghosthub'`, then the lower-cased
platform when the platform string is truthy. -/
def _generateIssueLabels (type platform : String) : List String :=
  let labels : List String :=
    if type = "bug" then ["bug"]
    else if type = "feature" then ["enhancement"]
    else if type = "pr_mention" then ["pr-related"]
    else []
  let labels := labels ++ ["ghosthub"]
  if platform = "" then labels else labels ++ [lowerString platform]

/-- Written from the spec's words (§4.6): the deterministic mapping
`{bug→['bug'], feature→['enhancement'], pr_mention→['pr-related']}` plus
always `'ghosthub'` plus the lower-cased platform name. -/
def specIssueLabels (type platform : String) : List String :=
  (if type = "bug" then ["bug"]
   else if type = "feature" then ["enhancement"]
   else ["pr-related"]) ++ ["ghosthub", lowerString platform]

/-- `AIWorkflowManager._createIssueDraft` (part_008 lines 174-200). -/
def _createIssueDraft (classification : ClassificationResult) (summary : SummaryResult)
    (now : Nat) : IssueData :=
  let type := classification.data.classification
  { title := _generateIssueTitle type summary.data.summary
    description := createIssueDescription summary.data classification.data
    labels := _generateIssueLabels type summary.data.platform
    type := type
    platform := summary.data.platform
    messageCount := summary.data.messageCount
    classificationId := classification.id
    summaryId := summary.id
    status := "draft"
    createdAt := now
    originalMessages := summary.data.originalMessages }

/-- The combined mutable state visible to `AIWorkflowManager`. -/
structure SystemState where
  promptMgr : PromptState
  summMgr : SummarizerState
  wfInitialized : Bool
  db : DBState
deriving Repr, DecidableEq

/-- A freshly loaded extension: no sessions, empty database. -/
def systemState0 : SystemState :=
  { promptMgr := promptState0, summMgr := summarizerState0
    wfInitialized := false, db := emptyDB }

/-- `AIWorkflowManager.initialize` (part_008 lines 19-38): on first call
probe both capabilities (which records `isAvailable` on each manager);
afterwards a no-op. -/
def workflowInitialize (envP : PromptEnv) (envS : SummarizerEnv) (st : SystemState) :
    SystemState :=
  if st.wfInitialized then st
  else
    { st with
      promptMgr := { st.promptMgr with isAvailable := envP.available }
      summMgr := { st.summMgr with isAvailable := envS.available }
      wfInitialized := true }

/-- The result object of `processThread` (part_008 lines 108-136):
`{classification, actionable:false}` for non-actionable threads, or
`{classification, summary, issueDraft (with its id), actionable:true}`. -/
structure ThreadResult where
  classification : ClassificationResult
  summary : Option SummaryResult := none
  issueDraft : Option (IssueData × Nat) := none
  actionable : Bool
deriving Repr, DecidableEq

/-- `AIWorkflowManager.processThread` (part_008 lines 88-141): classify
the first message (spread with the thread's platform and a defaulted
timestamp); if the category is not actionable return
`{classification, actionable:false}`; otherwise summarize the thread,
build the issue draft, persist it and return everything. -/
def processThread (envP : PromptEnv) (envS : SummarizerEnv) (thread : Thread)
    (now : Nat) (st : SystemState) : SystemState × Except JsError ThreadResult :=
  let st := workflowInitialize envP envS st
  match thread.messages with
  | [] => (st, Except.error JsError.emptyThread)
  | firstMessage :: _ =>
    let msg : Message :=
      { firstMessage with
        platform := thread.platform
        timestamp := some (jsNatOr firstMessage.timestamp now) }
    match classifyMessage envP st.promptMgr msg now st.db with
    | (pm, db, Except.error e) => ({ st with promptMgr := pm, db := db }, Except.error e)
    | (pm, db, Except.ok classification) =>
      let st := { st with promptMgr := pm, db := db }
      if actionableCategories.contains classification.data.classification then
        match summarizeThread envS st.summMgr thread now st.db with
        | (sm, db, Except.error e) => ({ st with summMgr := sm, db := db }, Except.error e)
        | (sm, db, Except.ok summary) =>
          let st := { st with summMgr := sm, db := db }
          let issueDraft := _createIssueDraft classification summary now
          let (issueId, db) := storeIssue issueDraft now st.db
          ({ st with db := db },
           Except.ok { classification := classification, summary := some summary
                       issueDraft := some (issueDraft, issueId), actionable := true })
      else
        (st, Except.ok { classification := classification, actionable := false })

/-- `AIWorkflowManager.updateIssueStatus` (part_008 lines 275-277):
straight delegation to the store with no validation of the current or
requested status. -/
def workflowUpdateIssueStatus (issueId : Nat) (status : String) (st : SystemState) :
    SystemState :=
  { st with db := updateIssueStatus issueId status st.db }

/-! ## Multimodal Analyzer (src/utils/multimodal-ai.js) -/

/-- Whether a character list starts with the given literal. -/
def startsWithChars : List Char → List Char → Bool
  | [], _ => true
  | _ :: _, [] => false
  | p :: ps, c :: cs => p = c && startsWithChars ps cs

/-- Case-sensitive literal match returning the remainder. -/
def matchLiteral : List Char → List Char → Option (List Char)
  | [], cs => some cs
  | _ :: _, [] => none
  | p :: ps, c :: cs => if p = c then matchLiteral ps cs else none

/-- Lazy `(.+?)` (with `/s`, so `.` includes newlines) followed by the
lookahead `(?=stop₁|stop₂|$)`: starting from a non-empty accumulator,
extend one character at a time until a stop literal follows or the input
ends. -/
def lazyCaptureAux (stops : List (List Char)) (acc : List Char) :
    List Char → List Char
  | [] => acc.reverse
  | r :: rs =>
    if stops.any (fun s => startsWithChars s (r :: rs)) then acc.reverse
    else lazyCaptureAux stops (r :: acc) rs

/-- `\s*(.+?)(?=stops|$)` applied to the text right after a section
label.  The greedy `\s*` first takes the maximal whitespace run; when
nothing is left for the mandatory `(.+?)` the engine backtracks one
whitespace character (which then becomes the capture). -/
def sectionCaptureAt (stops : List (List Char)) (cs : List Char) :
    Option (List Char) :=
  let skipped := skipSpacesJS cs
  match skipped with
  | r :: rs => some (lazyCaptureAux stops [r] rs)
  | [] =>
    match cs.reverse with
    | r :: _ => some (lazyCaptureAux stops [r] [])
    | [] => none

/-- Leftmost match of `/LABEL:\s*(.+?)(?=stops|$)/s`: scan start
positions from the left, at each one require the label literal and then
a non-empty capture. -/
def matchSection (label : List Char) (stops : List (List Char)) :
    List Char → Option (List Char)
  | [] => none
  | c :: cs =>
    match matchLiteral label (c :: cs) with
    | some rest =>
      match sectionCaptureAt stops rest with
      | some cap => some cap
      | none => matchSection label stops cs
    | none => matchSection label stops cs

/-- JS `String.prototype.trim` over the modelled whitespace class. -/
def jsTrim (s : String) : String :=
  String.mk (((s.data.dropWhile (fun c => jsIsSpace c)).reverse.dropWhile
    (fun c => jsIsSpace c)).reverse)

/-- JS `split('\n')` (keeps empty segments). -/
def splitLinesAux (acc : List Char) : List Char → List (List Char)
  | [] => [acc.reverse]
  | c :: cs =>
    if c = '\n' then acc.reverse :: splitLinesAux [] cs
    else splitLinesAux (c :: acc) cs

/-- JS `split('\n')` on strings. -/
def splitLinesJS (s : String) : List String :=
  (splitLinesAux [] s.data).map String.mk

/-- The result object of `processImage` / `parseMultimodalResponse`. -/
structure ImageResult where
  text : String
  context : String
  errors : List String
  rawResponse : Option String := none
  error : Option String := none
deriving Repr, DecidableEq

/-- `MultimodalAI.parseMultimodalResponse`
(src/utils/multimodal-ai.js lines 123-155): extract the
`ERROR:`/`TEXT:`/`CONTEXT:` sections; a missing section yields the empty
value for its field; the error section is trimmed, discarded when it is
empty, `'[]'` or (case-insensitively) `'none'`, and otherwise split into
trimmed non-empty lines that are not `'-'`. -/
def parseMultimodalResponse (response : String) : ImageResult :=
  let errors :=
    match matchSection "ERROR:".data ["TEXT:".data, "CONTEXT:".data] response.data with
    | some cap =>
      let errorText := jsTrim (String.mk cap)
      if errorText != "" && errorText != "[]" && lowerString errorText != "none" then
        ((splitLinesJS errorText).map jsTrim).filter (fun e => e != "" && e != "-")
      else []
    | none => []
  let text :=
    match matchSection "TEXT:".data ["CONTEXT:".data, "ERROR:".data] response.data with
    | some cap => jsTrim (String.mk cap)
    | none => ""
  let context :=
    match matchSection "CONTEXT:".data [] response.data with
    | some cap => jsTrim (String.mk cap)
    | none => ""
  { text := text, context := context, errors := errors, rawResponse := some response }

/-- An image source handed to `processImage`: a URL string, a
Blob/File, or anything else (which the body rejects). -/
inductive ImageSource where
  | url (u : String)
  | blob (payload : String)
  | invalid
deriving Repr, DecidableEq

/-- The injected multimodal capability. -/
structure MultimodalEnv where
  /-- Whether `initialize()` succeeds end to end: `window.ai` exists,
  `capabilities().available !== 'no'` and session creation does not
  throw (a creation failure is caught inside `initialize` and also
  yields `false`). -/
  mmAvailable : Bool
  /-- `fetchImageAsDataURL`: fetch a URL and encode it (may reject). -/
  fetchImage : String → Except String String
  /-- `session.prompt(text, {image})` keyed by the encoded image. -/
  respondImage : String → Except String String

/-- Mutable field of `MultimodalAI`. -/
structure MultimodalState where
  /-- Whether `this.session` is non-null. -/
  session : Bool
deriving Repr, DecidableEq

/-- `new MultimodalAI()`. -/
def multimodalState0 : MultimodalState := { session := false }

/-- Model of `blobToDataURL` (`FileReader.readAsDataURL`) as an
injective encoding of the blob payload. -/
def blobToDataURL (payload : String) : String := "data:" ++ payload

/-- The zero-value result returned when the capability is unavailable
(src/utils/multimodal-ai.js lines 65-71). -/
def unavailableImageResult : ImageResult :=
  { error := some "Multimodal AI not available", text := "", context := "", errors := [] }

/-- The result the surrounding `catch` turns a thrown error into
(src/utils/multimodal-ai.js lines 95-100). -/
def errorImageResult (msg : String) : ImageResult :=
  { error := some msg, text := "", context := "", errors := [] }

/-- The body of `processImage` after a session exists: normalize the
image source (rejecting unknown types), submit it, parse the response;
any rejection is caught and becomes an error-shaped result. -/
def processImageBody (env : MultimodalEnv) (mgr : MultimodalState) (img : ImageSource) :
    MultimodalState × ImageResult :=
  let imageData : Except String String :=
    match img with
    | ImageSource.url u => env.fetchImage u
    | ImageSource.blob payload => Except.ok (blobToDataURL payload)
    | ImageSource.invalid => Except.error "Invalid image source type"
  match imageData with
  | Except.error msg => (mgr, errorImageResult msg)
  | Except.ok data =>
    match env.respondImage data with
    | Except.error msg => (mgr, errorImageResult msg)
    | Except.ok response => (mgr, parseMultimodalResponse response)

/-- `MultimodalAI.processImage` (src/utils/multimodal-ai.js lines
60-102): lazily initialize; when initialization fails return the
explicit unavailable result (never throw); otherwise run the body, whose
failures are likewise caught and returned as error-shaped results. -/
def processImage (env : MultimodalEnv) (mgr : MultimodalState) (img : ImageSource) :
    MultimodalState × ImageResult :=
  if mgr.session then processImageBody env mgr img
  else if env.mmAvailable then processImageBody env { session := true } img
  else (mgr, unavailableImageResult)

/-! ## Message Analyzer (src/unnamed/part_011) -/

/-- JS `String.prototype.includes` on the character model. -/
def includesAux : List Char → List Char → Bool
  | [], sub => sub.isEmpty
  | c :: cs, sub => startsWithChars sub (c :: cs) || includesAux cs sub

/-- JS `String.prototype.includes`. -/
def strIncludes (s sub : String) : Bool :=
  includesAux s.data sub.data

/-- The analysis object built by `analyzeMessage`
(src/unnamed/part_011 lines 36-44); `classifyMessage` reads its `text`
and `hasErrors` fields. -/
structure Analysis where
  text : String
  images : List ImageResult := []
  hasErrors : Bool
  errors : List String := []
  summary : String := ""
  context : String := ""
  type : String := "unknown"
deriving Repr, DecidableEq

/-- `MessageAnalyzer.classifyMessage` (src/unnamed/part_011 lines
103-135): lower-case the text, then check the bug indicators (image
errors or bug keywords), then the feature keywords, then the PR
keywords, in that order. -/
def analyzerClassifyMessage (analysis : Analysis) : String :=
  let text := lowerString analysis.text
  if analysis.hasErrors
      || strIncludes text "error"
      || strIncludes text "bug"
      || strIncludes text "broken"
      || strIncludes text "crash"
      || strIncludes text "issue"
      || strIncludes text "not working" then
    "bug"
  else if strIncludes text "feature"
      || strIncludes text "enhancement"
      || strIncludes text "should add"
      || strIncludes text "would be nice"
      || strIncludes text "request" then
    "feature"
  else if strIncludes text "pr"
      || strIncludes text "pull request"
      || strIncludes text "merge" then
    "pr-mention"
  else "general"

/-- The spec's bug lexicon (spec §4.5). -/
def bugLexicon : List String := ["error", "bug", "broken", "crash", "issue", "not working"]

/-- The spec's feature lexicon (spec §4.5). -/
def featureLexicon : List String := ["feature", "enhancement", "should add", "would be nice", "request"]

/-- The spec's PR lexicon (spec §4.5). -/
def prLexicon : List String := ["pr", "pull request", "merge"]

/-- Written from the spec's words (§4.5), independently of the code:
presence of any error OR a bug-lexicon keyword in the lower-cased text
gives `bug`; else a feature-lexicon keyword gives `feature`; else a
PR-lexicon keyword gives `pr-mention`; else `general`. -/
def specMessageType (analysis : Analysis) : String :=
  let text := lowerString analysis.text
  if analysis.hasErrors || bugLexicon.any (fun k => strIncludes text k) then "bug"
  else if featureLexicon.any (fun k => strIncludes text k) then "feature"
  else if prLexicon.any (fun k => strIncludes text k) then "pr-mention"
  else "general"

/-! ## Concrete fixtures used by counterexamples and witnesses -/

/-- An issue record already approved by the user. -/
def cexIssueApproved : IssueRecord :=
  { id := 1, title := "T", description := "D", labels := ["bug", "ghosthub", "slack"]
    type := "bug", platform := "slack", messageCount := 1
    classificationId := 1, summaryId := 1, status := "approved"
    createdAt := 10, originalMessages := [], timestamp := 10 }

/-- A database whose issues collection holds one approved draft. -/
def cexDB : DBState :=
  { classifications := [], summaries := [], issues := [cexIssueApproved]
    nextClassificationId := 1, nextSummaryId := 1, nextIssueId := 2 }

/-- A classification record as a caller might pass it to the store, with
its own `timestamp` field already present. -/
def cexClassificationInput : ClassificationData :=
  { messageText := "m", platform := "slack", author := "a", messageTimestamp := 3
    classification := "bug", confidence := "high", rawResponse := "r"
    timestamp := some 5 }

/-- A working generation capability that always answers with a
well-formed bug classification. -/
def cexPromptEnvOk : PromptEnv :=
  { available := true, createOk := true
    respond := fun _ => Except.ok "category: bug, confidence: high" }

/-- A working generation capability that always answers with a
well-formed non-actionable classification. -/
def cexPromptEnvOther : PromptEnv :=
  { available := true, createOk := true
    respond := fun _ => Except.ok "category: other, confidence: high" }

/-- An unavailable generation capability. -/
def cexPromptEnvDown : PromptEnv :=
  { available := false, createOk := true
    respond := fun _ => Except.error (JsError.capabilityFailure "no session") }

/-- A working summarizer capability. -/
def cexSummarizerEnvOk : SummarizerEnv :=
  { available := true, createOk := true
    summarize := fun _ => Except.ok "A summary." }

/-- An unavailable summarizer capability. -/
def cexSummarizerEnvDown : SummarizerEnv :=
  { available := false, createOk := true
    summarize := fun _ => Except.error (JsError.capabilityFailure "no summarizer") }

/-- An unavailable multimodal capability. -/
def cexMultimodalEnvDown : MultimodalEnv :=
  { mmAvailable := false
    fetchImage := fun _ => Except.error "fetch failed"
    respondImage := fun _ => Except.error "no session" }

/-- A prompt manager whose session already exists. -/
def promptStateReady : PromptState := { session := true, isAvailable := true }

/-- A fully initialized system over an empty database. -/
def systemStateReady : SystemState :=
  { promptMgr := { session := true, isAvailable := true }
    summMgr := { summarizer := true, isAvailable := true }
    wfInitialized := true, db := emptyDB }

/-- A one-message thread whose text is not actionable. -/
def cexThreadOther : Thread :=
  { threadId := some "t1", platform := some "slack"
    messages := [{ text := "what time is the meeting?" }] }

/-! ## Helper lemmas -/

/-- After a `put`, looking the record up by its own id finds it. -/
theorem findIssue_putIssue_self (issues : List IssueRecord) (r : IssueRecord) :
    findIssue (putIssue issues r) r.id = some r := by
  induction issues with
  | nil => simp [putIssue, findIssue]
  | cons x xs ih =>
    by_cases h : x.id = r.id
    · simp [putIssue, findIssue, h]
    · simp only [putIssue, findIssue] at ih ⊢
      simp [h, ih]

/-- A `put` does not change lookups at other ids. -/
theorem findIssue_putIssue_other (issues : List IssueRecord) (r : IssueRecord)
    (j : Nat) (h : j ≠ r.id) :
    findIssue (putIssue issues r) j = findIssue issues j := by
  have hrj : (r.id == j) = false := by simp [Ne.symm h]
  induction issues with
  | nil => simp [putIssue, findIssue, List.find?, hrj]
  | cons x xs ih =>
    by_cases hx : x.id = r.id
    · have hxj : (x.id == j) = false := by rw [hx]; exact hrj
      simp [putIssue, findIssue, hx, List.find?_cons, hrj, hxj]
    · simp only [putIssue, findIssue] at ih ⊢
      cases hxj : (x.id == j) <;> simp [hx, List.find?_cons, hxj, ih]

/-- A successful issue lookup returns a record carrying the looked-up id. -/
theorem findIssue_id (issues : List IssueRecord) (id : Nat) (r : IssueRecord)
    (h : findIssue issues id = some r) : r.id = id := by
  have := List.find?_some h
  simpa using this

/-! ## Claim C1 -/

/-- Claim C1 as stated is false: `updateIssueStatus` performs no
transition validation, so an `approved` record is overwritten back to
`draft` instead of the call failing with `InvalidTransition` and leaving
the record unchanged. -/
theorem claim_C1_counterexample :
    updateIssueStatus 1 "draft" cexDB ≠ cexDB ∧
    findIssue (updateIssueStatus 1 "draft" cexDB).issues 1 =
      some { cexIssueApproved with status := "draft" } := by
  constructor
  · decide
  · decide

/-- Claim C1 (amended): `updateIssueStatus` applies no transition guard
at all.  Whenever a record with the given id exists, its stored status
is unconditionally overwritten with the requested value — any source
status and any target value, including reverting to `draft` — and no
`InvalidTransition` error exists; the other collections and all other
issue records are untouched. -/
theorem claim_C1 (id : Nat) (status : String) (st : DBState) (r : IssueRecord)
    (h : findIssue st.issues id = some r) :
    findIssue (updateIssueStatus id status st).issues id =
      some { r with status := status } ∧
    (updateIssueStatus id status st).classifications = st.classifications ∧
    (updateIssueStatus id status st).summaries = st.summaries ∧
    ∀ j, j ≠ id → findIssue (updateIssueStatus id status st).issues j =
      findIssue st.issues j := by
  have hid : r.id = id := findIssue_id st.issues id r h
  refine ⟨?_, ?_, ?_, ?_⟩
  · have := findIssue_putIssue_self st.issues { r with status := status }
    simpa [updateIssueStatus, h, hid] using this
  · simp [updateIssueStatus, h]
  · simp [updateIssueStatus, h]
  · intro j hj
    have := findIssue_putIssue_other st.issues { r with status := status } j
      (by simpa [hid] using hj)
    simpa [updateIssueStatus, h] using this

/-- Witness for the amended claim C1 at a concrete approved record. -/
theorem claim_C1_witness :
    findIssue (updateIssueStatus 1 "approved" cexDB).issues 1 =
      some { cexIssueApproved with status := "approved" } :=
  (claim_C1 1 "approved" cexDB cexIssueApproved (by decide)).1

/-! ## Claim C9 -/

/-- Claim C9 as stated is false: the stored record with `timestamp` 5
present comes out with `timestamp` 100 (the insertion time), because
`storeClassification` spreads the input and then unconditionally
overwrites `timestamp` with `Date.now()`. -/
theorem claim_C9_counterexample :
    cexClassificationInput.timestamp = some 5 ∧
    ((storeClassification cexClassificationInput 100 emptyDB).2.classifications.map
      (fun r => r.timestamp)) = [100] := by
  constructor
  · decide
  · decide

/-- Claim C9 (amended): the insert operations always set the stored
`timestamp` to the current time, overwriting any timestamp already
present on the record (they never keep the caller's value), and return
the assigned auto-increment id, which grows by one on every insert. -/
theorem claim_C9 (c : ClassificationData) (i : IssueData) (now : Nat) (st : DBState) :
    (storeClassification c now st).1 = st.nextClassificationId ∧
    (storeClassification c now st).2.nextClassificationId = st.nextClassificationId + 1 ∧
    (storeClassification c now st).2.classifications.map (fun r => (r.id, r.timestamp)) =
      st.classifications.map (fun r => (r.id, r.timestamp)) ++
        [(st.nextClassificationId, now)] ∧
    (storeIssue i now st).1 = st.nextIssueId ∧
    (storeIssue i now st).2.issues.map (fun r => (r.id, r.timestamp)) =
      st.issues.map (fun r => (r.id, r.timestamp)) ++ [(st.nextIssueId, now)] ∧
    (storeClassification c now (storeClassification c now st).2).1 =
      (storeClassification c now st).1 + 1 := by
  simp [storeClassification, storeIssue]

/-- A case-insensitive token match lower-cases back to the pattern. -/
theorem matchTokenCI_lower : ∀ (ps cs m rest : List Char),
    matchTokenCI ps cs = some (m, rest) → m.map Char.toLower = ps := by
  intro ps
  induction ps with
  | nil =>
    intro cs m rest h
    simp [matchTokenCI] at h
    simp [h.1]
  | cons p ps ih =>
    intro cs m rest h
    cases cs with
    | nil => simp [matchTokenCI] at h
    | cons c cs =>
      simp only [matchTokenCI] at h
      by_cases hc : c.toLower = p
      · rw [if_pos hc] at h
        cases hm : matchTokenCI ps cs with
        | none => rw [hm] at h; simp at h
        | some pr =>
          obtain ⟨m', rest'⟩ := pr
          rw [hm] at h
          simp at h
          obtain ⟨hm1, -⟩ := h
          subst hm1
          simp [hc, ih cs m' rest' hm]
      · rw [if_neg hc] at h
        simp at h

/-- A successful ordered alternation captures one of its tokens (up to
lower-casing). -/
theorem tryTokens_lower_mem : ∀ (pats : List (List Char)) (cs m : List Char),
    tryTokens pats cs = some m → m.map Char.toLower ∈ pats := by
  intro pats
  induction pats with
  | nil => intro cs m h; simp [tryTokens] at h
  | cons p ps ih =>
    intro cs m h
    simp only [tryTokens] at h
    cases hm : matchTokenCI p cs with
    | some pr =>
      obtain ⟨g, rest⟩ := pr
      rw [hm] at h
      simp at h
      subst h
      rw [matchTokenCI_lower p cs g rest hm]
      exact List.mem_cons_self p ps
    | none =>
      rw [hm] at h
      exact List.mem_cons_of_mem p (ih cs m h)

/-! ## Claim C10 -/

/-- Claim C10 confirmed: updating the status of an id that has no record
in the issues collection is a silent no-op — the promise resolves, no
not-found is signalled, and the whole database (all three collections)
is returned unchanged. -/
theorem claim_C10 (id : Nat) (status : String) (st : DBState)
    (h : findIssue st.issues id = none) :
    updateIssueStatus id status st = st := by
  unfold updateIssueStatus
  rw [h]

/-- Witness for claim C10 on the empty database. -/
theorem claim_C10_witness :
    findIssue emptyDB.issues 1 = none ∧
    updateIssueStatus 1 "approved" emptyDB = emptyDB :=
  ⟨by decide, claim_C10 1 "approved" emptyDB (by decide)⟩

/-- Everything a leftmost scan returns was produced by one positional
attempt. -/
theorem regexScan_sound (attempt : List Char → Option (List Char)) :
    ∀ (cs m : List Char), regexScan attempt cs = some m → ∃ s, attempt s = some m := by
  intro cs
  induction cs with
  | nil => intro m h; exact ⟨[], h⟩
  | cons c cs ih =>
    intro m h
    simp only [regexScan] at h
    cases ha : attempt (c :: cs) with
    | some m' => rw [ha] at h; simp at h; exact ⟨c :: cs, by rw [ha, h]⟩
    | none => rw [ha] at h; exact ih m h

/-- A successful category attempt captures one of the four category
tokens (up to lower-casing). -/
theorem tryCategoryAt_mem (cs m : List Char) (h : tryCategoryAt cs = some m) :
    String.mk (m.map Char.toLower) ∈
      (["bug", "feature", "pr_mention", "other"] : List String) := by
  unfold tryCategoryAt at h
  cases h0 : matchTokenCI "category:".data cs with
  | none => rw [h0] at h; simp at h
  | some pr =>
    obtain ⟨g, rest⟩ := pr
    rw [h0] at h
    simp only at h
    have hmem := tryTokens_lower_mem _ _ _ h
    simp only [List.mem_cons, List.mem_singleton] at hmem
    rcases hmem with h1 | h1 | h1 | h1 | h1
    · simp [h1]
    · simp [h1]
    · simp [h1]
    · simp [h1]
    · simp at h1

/-- A successful confidence attempt captures one of the three confidence
tokens (up to lower-casing). -/
theorem tryConfidenceAt_mem (cs m : List Char) (h : tryConfidenceAt cs = some m) :
    String.mk (m.map Char.toLower) ∈ (["high", "medium", "low"] : List String) := by
  unfold tryConfidenceAt at h
  cases h0 : matchTokenCI "confidence:".data cs with
  | none => rw [h0] at h; simp at h
  | some pr =>
    obtain ⟨g, rest⟩ := pr
    rw [h0] at h
    simp only at h
    have hmem := tryTokens_lower_mem _ _ _ h
    simp only [List.mem_cons, List.mem_singleton] at hmem
    rcases hmem with h1 | h1 | h1 | h1
    · simp [h1]
    · simp [h1]
    · simp [h1]
    · simp at h1

/-! ## Claim C4 -/

/-- Claim C4 confirmed: on every raw model-response string the parser is
total (never throws), its classification lands in
`{bug, feature, pr_mention, other}`, its confidence lands in
`{high, medium, low}`, and when neither regex matches the result is
exactly `{classification: other, confidence: low}`. -/
theorem claim_C4 (response : String) :
    (_parseClassificationResponse response).category ∈
      (["bug", "feature", "pr_mention", "other"] : List String) ∧
    (_parseClassificationResponse response).confidence ∈
      (["high", "medium", "low"] : List String) ∧
    (regexScan tryCategoryAt response.data = none →
     regexScan tryConfidenceAt response.data = none →
     _parseClassificationResponse response = { category := "other", confidence := "low" }) := by
  refine ⟨?_, ?_, ?_⟩
  · unfold _parseClassificationResponse
    cases h : regexScan tryCategoryAt response.data with
    | none => simp [h]
    | some m =>
      simp only [h]
      obtain ⟨s, hs⟩ := regexScan_sound tryCategoryAt response.data m h
      exact tryCategoryAt_mem s m hs
  · unfold _parseClassificationResponse
    cases h : regexScan tryConfidenceAt response.data with
    | none => simp [h]
    | some m =>
      simp only [h]
      obtain ⟨s, hs⟩ := regexScan_sound tryConfidenceAt response.data m h
      exact tryConfidenceAt_mem s m hs
  · intro h1 h2
    unfold _parseClassificationResponse
    rw [h1, h2]

/-- Witness for claim C4 on a response that matches neither regex. -/
theorem claim_C4_witness :
    regexScan tryCategoryAt "hello".data = none ∧
    regexScan tryConfidenceAt "hello".data = none ∧
    _parseClassificationResponse "hello" = { category := "other", confidence := "low" } :=
  ⟨by decide, by decide, (claim_C4 "hello").2.2 (by decide) (by decide)⟩

/-! ## Claim C5 -/

/-- Claim C5 as stated is false: with the capability available,
classifying a message whose `text` is empty is not rejected with any
`InvalidInput` error — the empty text is sent to the capability (whose
response surfaces in the stored `rawResponse`) and the classification is
persisted. -/
theorem claim_C5_counterexample :
    (exceptToOption
        (classifyMessage cexPromptEnvOk promptState0 { text := "" } 7 emptyDB).2.2).map
        (fun r => (r.data.messageText, r.data.classification, r.data.rawResponse)) =
      some ("", "bug", "category: bug, confidence: high") ∧
    (classifyMessage cexPromptEnvOk promptState0 { text := "" } 7 emptyDB).2.1.classifications.map
        (fun r => r.messageText) = [""] := by
  constructor
  · rfl
  · rfl

/-- Claim C5 (amended): `classifyMessage` performs no validation of
`message.text`.  An empty-text message is never rejected: the
classification prompt built from the empty text is sent to the
capability, the response is parsed as usual, and the resulting record
(with empty `messageText`) is persisted in the classifications
collection exactly like any other message. -/
theorem claim_C5 (env : PromptEnv) (mgr : PromptState) (now : Nat) (db : DBState)
    (resp : String) (hs : mgr.session = true)
    (hr : env.respond (classificationPrompt "") = Except.ok resp) :
    (exceptToOption (classifyMessage env mgr { text := "" } now db).2.2).map
        (fun r => (r.data.messageText, r.data.rawResponse, r.data.classification)) =
      some ("", resp, (_parseClassificationResponse resp).category) ∧
    (classifyMessage env mgr { text := "" } now db).2.1.classifications.map
        (fun r => r.messageText) =
      db.classifications.map (fun r => r.messageText) ++ [""] := by
  constructor <;>
    simp [classifyMessage, hs, hr, storeClassification, exceptToOption, jsStrOr, jsNatOr]

/-- Witness for the amended claim C5 at a concrete capability. -/
theorem claim_C5_witness :
    (classifyMessage cexPromptEnvOk promptStateReady { text := "" } 7 emptyDB).2.1.classifications.map
        (fun r => r.messageText) =
      emptyDB.classifications.map (fun r => r.messageText) ++ [""] :=
  (claim_C5 cexPromptEnvOk promptStateReady 7 emptyDB
    "category: bug, confidence: high" rfl rfl).2

/-! ## Claim C2 -/

/-- Claim C2 as stated is false: with the generation capability
unavailable, `classifyMessage` rejects with the
`'Prompt API is not available'` error instead of returning a
recognizable unavailable result shape. -/
theorem claim_C2_counterexample :
    (classifyMessage cexPromptEnvDown promptState0 { text := "hi" } 0 emptyDB).2.2 =
      Except.error JsError.promptUnavailable := by
  rfl

/-- Claim C2 (amended): only `processImage` degrades to an unavailable
result shape — it returns the zero-value
`{error: 'Multimodal AI not available', text:'', context:'', errors:[]}`
without throwing.  `classifyMessage` and `summarizeThread` instead
reject with their respective `'... API is not available'` errors (and
persist nothing); their callers are expected to check availability
first. -/
theorem claim_C2 (envP : PromptEnv) (envS : SummarizerEnv) (envM : MultimodalEnv)
    (mp : PromptState) (ms : SummarizerState) (mm : MultimodalState)
    (msg : Message) (thread : Thread) (img : ImageSource) (now : Nat) (db : DBState)
    (hP : envP.available = false) (hS : envS.available = false)
    (hM : envM.mmAvailable = false) (hmp : mp.session = false)
    (hms : ms.summarizer = false) (hmm : mm.session = false) :
    (classifyMessage envP mp msg now db).2.2 = Except.error JsError.promptUnavailable ∧
    (classifyMessage envP mp msg now db).2.1 = db ∧
    (summarizeThread envS ms thread now db).2.2 = Except.error JsError.summarizerUnavailable ∧
    (summarizeThread envS ms thread now db).2.1 = db ∧
    processImage envM mm img = (mm, unavailableImageResult) := by
  refine ⟨?_, ?_, ?_, ?_, ?_⟩ <;>
    simp [classifyMessage, summarizeThread, processImage, promptInitialize,
          summarizerInitialize, hP, hS, hM, hmp, hms, hmm]

/-- Witness for the amended claim C2 at concrete unavailable
capabilities. -/
theorem claim_C2_witness :
    (summarizeThread cexSummarizerEnvDown summarizerState0
        { messages := [{ text := "hi" }] } 0 emptyDB).2.2 =
      Except.error JsError.summarizerUnavailable ∧
    processImage cexMultimodalEnvDown multimodalState0 (ImageSource.url "x") =
      (multimodalState0, unavailableImageResult) :=
  ⟨(claim_C2 cexPromptEnvDown cexSummarizerEnvDown cexMultimodalEnvDown promptState0
      summarizerState0 multimodalState0 { text := "hi" }
      { messages := [{ text := "hi" }] } (ImageSource.url "x") 0 emptyDB
      rfl rfl rfl rfl rfl rfl).2.2.1,
   (claim_C2 cexPromptEnvDown cexSummarizerEnvDown cexMultimodalEnvDown promptState0
      summarizerState0 multimodalState0 { text := "hi" }
      { messages := [{ text := "hi" }] } (ImageSource.url "x") 0 emptyDB
      rfl rfl rfl rfl rfl rfl).2.2.2.2⟩

/-! ## Claim C6 -/

/-- Claim C6 confirmed: for every actionable type and every (non-empty)
platform name, the generated labels are exactly the spec's deterministic
mapping plus `'ghosthub'` plus the lower-cased platform — as lists, and
therefore in particular as sets. -/
theorem claim_C6 (type platform : String)
    (ht : type ∈ actionableCategories) (hp : platform ≠ "") :
    _generateIssueLabels type platform = specIssueLabels type platform := by
  simp only [actionableCategories, List.mem_cons, List.mem_singleton,
    List.not_mem_nil, or_false] at ht
  rcases ht with h | h | h <;> subst h <;>
    simp [_generateIssueLabels, specIssueLabels, hp]

/-- Witness for claim C6 at type `bug`, platform `slack`, including the
order-independent set equality `{bug, ghosthub, slack}`. -/
theorem claim_C6_witness :
    _generateIssueLabels "bug" "slack" = specIssueLabels "bug" "slack" ∧
    (_generateIssueLabels "bug" "slack").toFinset =
      ({"bug", "ghosthub", "slack"} : Finset String) :=
  ⟨claim_C6 "bug" "slack" (by decide) (by decide), by decide⟩

/-! ## Claim C7 -/

/-- String concatenation adds lengths. -/
theorem strLength_append (a b : String) : (a ++ b).length = a.length + b.length := by
  obtain ⟨l1⟩ := a
  obtain ⟨l2⟩ := b
  show (String.mk (l1 ++ l2)).length = _
  simp

/-- Claim C7 confirmed: every generated issue title is the type's emoji,
a space, and a truncation of the summary's first sentence that is at
most 80 characters long (either the first sentence itself, or its first
77 characters plus `'...'`). -/
theorem claim_C7 (type summary : String) :
    ∃ t : String,
      _generateIssueTitle type summary = emojiForType type ++ " " ++ t ∧
      t.length ≤ 80 ∧
      (t = String.mk (splitFirstSentenceChars summary.data) ∨
       t = strTake (String.mk (splitFirstSentenceChars summary.data)) 77 ++ "...") := by
  unfold _generateIssueTitle
  by_cases h : 80 < (splitFirstSentenceChars summary.data).length
  · refine ⟨strTake (String.mk (splitFirstSentenceChars summary.data)) 77 ++ "...",
      by simp [h], ?_, Or.inr rfl⟩
    have h77 : (strTake (String.mk (splitFirstSentenceChars summary.data)) 77).length ≤ 77 := by
      show (List.take 77 (splitFirstSentenceChars summary.data)).length ≤ 77
      rw [List.length_take]
      omega
    have h3 : ("..." : String).length = 3 := by decide
    rw [strLength_append, h3]
    omega
  · refine ⟨String.mk (splitFirstSentenceChars summary.data),
      by simp [h], ?_, Or.inl rfl⟩
    simp only [String.mk_length]
    omega

/-! ## Claim C8 -/

/-- Claim C8 confirmed: the Message Analyzer's type is exactly the
spec's deterministic keyword-priority rule — bug evidence (image errors
or bug lexicon) first, then the feature lexicon, then the PR lexicon,
else `general`. -/
theorem claim_C8 (analysis : Analysis) :
    analyzerClassifyMessage analysis = specMessageType analysis := by
  simp [analyzerClassifyMessage, specMessageType, bugLexicon, featureLexicon,
    prLexicon, List.any_cons, List.any_nil, Bool.or_assoc, Bool.or_false]

/-! ## Claim C3 -/

/-- Claim C3 as stated is false on one collection: a thread whose first
message classifies as `other` produces no summary and no draft and the
summaries/issues collections stay empty, but the classifications
collection does gain one record (the classifier persists every
classification), so something new is persisted. -/
theorem claim_C3_counterexample :
    ((exceptToOption (processThread cexPromptEnvOther cexSummarizerEnvOk cexThreadOther
        50 systemState0).2).map
      (fun r => (r.actionable, r.summary, r.issueDraft))) = some (false, none, none) ∧
    (processThread cexPromptEnvOther cexSummarizerEnvOk cexThreadOther
        50 systemState0).1.db.summaries = [] ∧
    (processThread cexPromptEnvOther cexSummarizerEnvOk cexThreadOther
        50 systemState0).1.db.issues = [] ∧
    ((processThread cexPromptEnvOther cexSummarizerEnvOk cexThreadOther
        50 systemState0).1.db.classifications.map
      (fun r => (r.messageText, r.classification))) =
      [("what time is the meeting?", "other")] := by
  refine ⟨rfl, rfl, rfl, rfl⟩

/-- Claim C3 (amended): for a thread whose first message classifies
outside `{bug, feature, pr_mention}`, `processThread` returns
`{classification, actionable:false}` with no summary and no issue draft,
and the summaries and issues collections gain zero new records — but
the classifications collection gains exactly the one record stored by
the classifier for the first message. -/
theorem claim_C3 (envP : PromptEnv) (envS : SummarizerEnv) (thread : Thread) (now : Nat)
    (st : SystemState) (m0 : Message) (rest : List Message) (resp : String)
    (hmsg : thread.messages = m0 :: rest)
    (hsess : st.promptMgr.session = true)
    (hr : envP.respond (classificationPrompt m0.text) = Except.ok resp)
    (hcat : (_parseClassificationResponse resp).category ∉ actionableCategories) :
    ((exceptToOption (processThread envP envS thread now st).2).map
      (fun r => (r.actionable, r.summary, r.issueDraft,
                 r.classification.data.classification))) =
      some (false, none, none, (_parseClassificationResponse resp).category) ∧
    (processThread envP envS thread now st).1.db.summaries = st.db.summaries ∧
    (processThread envP envS thread now st).1.db.issues = st.db.issues ∧
    (processThread envP envS thread now st).1.db.classifications.length =
      st.db.classifications.length + 1 := by
  refine ⟨?_, ?_, ?_, ?_⟩ <;>
  · by_cases hw : st.wfInitialized <;>
      simp [processThread, workflowInitialize, hw, hmsg, classifyMessage, hsess, hr,
        storeClassification, hcat, exceptToOption]

/-- Witness for the amended claim C3 at a concrete non-actionable
thread. -/
theorem claim_C3_witness :
    ((exceptToOption (processThread cexPromptEnvOther cexSummarizerEnvOk cexThreadOther
        50 systemStateReady).2).map
      (fun r => (r.actionable, r.summary, r.issueDraft,
                 r.classification.data.classification))) =
      some (false, none, none,
        (_parseClassificationResponse "category: other, confidence: high").category) ∧
    (processThread cexPromptEnvOther cexSummarizerEnvOk cexThreadOther
        50 systemStateReady).1.db.summaries = systemStateReady.db.summaries ∧
    (processThread cexPromptEnvOther cexSummarizerEnvOk cexThreadOther
        50 systemStateReady).1.db.issues = systemStateReady.db.issues ∧
    (processThread cexPromptEnvOther cexSummarizerEnvOk cexThreadOther
        50 systemStateReady).1.db.classifications.length =
      systemStateReady.db.classifications.length + 1 :=
  claim_C3 cexPromptEnvOther cexSummarizerEnvOk cexThreadOther 50 systemStateReady
    { text := "what time is the meeting?" } [] "category: other, confidence: high"
    rfl rfl rfl (by decide)

end GhostHub
